import Mathlib

/-!
Verification development for the MCP-ROBOT planning/verification/execution
pipeline (`src/mcp_robot/...`).

Shallow embedding conventions:
* Python `float` values are modelled as `PyFloat`: either an exact rational
  (ideal arithmetic; the repository's claims never hinge on binary-float
  rounding artefacts) or one of the non-finite values `nan` / `inf` / `ninf`.
  Finite arithmetic is carried out directly on `ℚ`.
* JSON-serializable Python values are modelled by the mutual inductive
  `JVal`/`JArr`/`JObj` (plain lists are avoided inside the inductive so that
  every function below is structurally recursive and kernel-reducible).
* Python dicts used as keyed stores are modelled as association lists with
  first-match lookup; insertion of a fresh key is modelled by consing.
* External library primitives that the repository calls but does not define
  are taken as explicit function parameters: `h : String → String` stands for
  `hashlib.sha256(·.encode("utf-8")).hexdigest()` and `solveIK` stands for the
  numpy trig pipeline inside `UniversalActionEncoder._solve_ik` (whose
  transcendental arithmetic is irrelevant to every claim below).  All theorems
  quantify over these parameters.
* `round(x, n)` is modelled as round-half-up on rationals; Python uses
  round-half-to-even, which differs only on exact decimal ties, and no claim
  below evaluates a tie.
-/

namespace MCPRobot

/-- Model of a Python `float`: an exact rational or a non-finite value. -/
inductive PyFloat where
  | fin (q : ℚ)
  | nan
  | inf
  | ninf
deriving DecidableEq

/-- Rounding to `n` decimal places, modelling Python `round(x, n)` on finite
floats (half-up instead of Python's half-even; no claim evaluates a tie). -/
def roundTo (n : ℕ) (q : ℚ) : ℚ := (round (q * 10 ^ n) : ℤ) / 10 ^ n

/-- Python `round(x, n)` on the `PyFloat` domain: `round` passes `nan` and the
infinities through unchanged. -/
def pyRound (n : ℕ) : PyFloat → PyFloat
  | .fin q => .fin (roundTo n q)
  | x => x

/-- Python `int(x)` truncation toward zero on rationals. -/
def pyTrunc (q : ℚ) : ℤ := if q < 0 then -(⌊-q⌋) else ⌊q⌋

/-- Python `x % 1.0` for rationals (floor-convention modulus). -/
def pyMod1 (q : ℚ) : ℚ := q - ⌊q⌋

/-- Python `abs(x)` on rationals (kernel-computable, unlike the lattice
`|·|`). -/
def pyAbs (q : ℚ) : ℚ := if q < 0 then -q else q

/-- Python `max(a, b)` (returns the first argument on ties). -/
def pyMax (a b : ℚ) : ℚ := if a < b then b else a

/-- Python `min(a, b)` (returns the first argument on ties). -/
def pyMin (a b : ℚ) : ℚ := if b < a then b else a

mutual
/-- JSON-serializable Python value (the argument domain of
`StableHasher.sha256_json` and of the pydantic `model_dump` outputs). -/
inductive JVal where
  | null
  | bool (b : Bool)
  | int (n : ℤ)
  | float (f : PyFloat)
  | str (s : String)
  | arr (xs : JArr)
  | obj (kvs : JObj)

/-- A JSON array, as its own inductive so recursion stays structural. -/
inductive JArr where
  | nil
  | cons (hd : JVal) (tl : JArr)

/-- A JSON object: an ordered list of key/value pairs. -/
inductive JObj where
  | nil
  | cons (key : String) (val : JVal) (tl : JObj)
end

/-- Builds a `JArr` from a Lean list. -/
def JArr.ofList : List JVal → JArr
  | [] => .nil
  | x :: xs => .cons x (JArr.ofList xs)

/-- Builds a `JObj` from a Lean association list. -/
def JObj.ofList : List (String × JVal) → JObj
  | [] => .nil
  | (k, v) :: xs => .cons k v (JObj.ofList xs)

/-- Inserts a binding into a `JObj` that is sorted by key, keeping it sorted
(string order on keys, as Python's `sorted` on `dict.items()`). -/
def JObj.insertSorted (k : String) (v : JVal) : JObj → JObj
  | .nil => .cons k v .nil
  | .cons k0 v0 tl =>
    if k ≤ k0 then .cons k v (.cons k0 v0 tl)
    else .cons k0 v0 (JObj.insertSorted k v tl)

/-- Sorts a `JObj` by key (insertion sort), modelling `sorted(data.items())`. -/
def JObj.sortByKey : JObj → JObj
  | .nil => .nil
  | .cons k v tl => (JObj.sortByKey tl).insertSorted k v

mutual
/-- The inner `canonicalize` of `StableHasher.sha256_json`
(`src/mcp_robot/runtime/determinism.py`): dict entries sorted by key and
canonicalized, list entries canonicalized in order, floats rounded to
`float_round` decimals, everything else passed through.  The Python source
sorts the items first and then canonicalizes each value; since sorting
compares keys only and canonicalization leaves keys unchanged, canonicalizing
the values first and then sorting (done here so the recursion is structural)
yields the identical object. -/
def canonicalize (fr : ℕ) : JVal → JVal
  | .obj kvs => .obj (canonObj fr kvs).sortByKey
  | .arr xs => .arr (canonArr fr xs)
  | .float f => .float (pyRound fr f)
  | v => v

/-- Canonicalizes every element of a JSON array. -/
def canonArr (fr : ℕ) : JArr → JArr
  | .nil => .nil
  | .cons x xs => .cons (canonicalize fr x) (canonArr fr xs)

/-- Canonicalizes every value of a (pre-sorted) JSON object. -/
def canonObj (fr : ℕ) : JObj → JObj
  | .nil => .nil
  | .cons k v tl => .cons k (canonicalize fr v) (canonObj fr tl)
end

/-- Decimal digit characters of a natural number. -/
def natDigits (n : ℕ) : String := toString n

/-- Renders a nonnegative rational with exactly `k` decimal places
(`q * 10^k` is assumed integral, which holds wherever this is applied). -/
def decRender (k : ℕ) (q : ℚ) : String :=
  let scaled : ℕ := (⌊q * 10 ^ k⌋).toNat
  let ip : ℕ := scaled / 10 ^ k
  let fp : ℕ := scaled % 10 ^ k
  let fpStr := natDigits fp
  let pad := String.mk (List.replicate (k - fpStr.length) '0')
  natDigits ip ++ "." ++ pad ++ fpStr

/-- Strips trailing `'0'` characters from a digit string, keeping at least one
character. -/
def stripZeros (s : List Char) : List Char :=
  match s with
  | [] => []
  | c :: cs =>
    match stripZeros cs with
    | [] => if c = '0' then [] else [c]
    | r => c :: r

/-- Smallest `k ≤ 6` with `q * 10^k` integral (else `6`): the number of
decimal digits Python's shortest-repr prints for the decimal values produced
by canonicalization, all of which have denominator dividing `10^6`. -/
def decPlaces (q : ℚ) : ℕ :=
  ((List.range 7).find? (fun k => (q * 10 ^ k).den == 1)).getD 6

/-- Python `repr` of a nonnegative finite float value arising in this
codebase: shortest decimal form with a mandatory decimal point. -/
def pyFloatReprNN (q : ℚ) : String :=
  let k := decPlaces q
  if k = 0 then natDigits (⌊q⌋).toNat ++ ".0"
  else
    let base := decRender k q
    match base.splitOn "." with
    | [ip, fp] =>
      let fp' := stripZeros fp.data
      ip ++ "." ++ (if fp'.isEmpty then "0" else String.mk fp')
    | _ => base

/-- Python `repr` of a finite float value (`repr(100.0) = "100.0"`,
`repr(-0.5) = "-0.5"`). -/
def pyFloatRepr (q : ℚ) : String :=
  if q < 0 then "-" ++ pyFloatReprNN (-q) else pyFloatReprNN q

/-- Lowercase hexadecimal digit. -/
def hexDigitChar (n : ℕ) : Char :=
  if n < 10 then Char.ofNat (48 + n) else Char.ofNat (87 + n)

/-- Four lowercase hex digits (for `\uXXXX` escapes). -/
def hex4 (n : ℕ) : String :=
  String.mk [hexDigitChar (n / 4096 % 16), hexDigitChar (n / 256 % 16),
             hexDigitChar (n / 16 % 16), hexDigitChar (n % 16)]

/-- Escape of one character under `json.dumps` defaults (`ensure_ascii=True`):
quote, backslash and the named control escapes, raw printable ASCII, and
`\uXXXX` (with surrogate pairs beyond the BMP) for everything else. -/
def jsonEscChar (c : Char) : String :=
  if c = '"' then "\\\""
  else if c = '\\' then "\\\\"
  else if c = '\n' then "\\n"
  else if c = '\t' then "\\t"
  else if c = '\r' then "\\r"
  else if c = Char.ofNat 8 then "\\b"
  else if c = Char.ofNat 12 then "\\f"
  else if 32 ≤ c.toNat ∧ c.toNat ≤ 126 then String.mk [c]
  else if c.toNat ≤ 65535 then "\\u" ++ hex4 c.toNat
  else
    let n := c.toNat - 65536
    "\\u" ++ hex4 (55296 + n / 1024) ++ "\\u" ++ hex4 (56320 + n % 1024)

/-- JSON string literal under `json.dumps` defaults. -/
def jsonStr (s : String) : String :=
  "\"" ++ String.join (s.data.map jsonEscChar) ++ "\""

mutual
/-- Model of `json.dumps(obj, separators=(",", ":"), sort_keys=True)` as
invoked by `StableHasher.sha256_json`.  Objects reaching this function have
already been key-sorted by `canonicalize`, so the `sort_keys=True` re-sort is
the identity and is omitted here (keeping the recursion structural).
Non-finite floats serialize as `NaN` / `Infinity` / `-Infinity`, the
`json.dumps` default (`allow_nan=True`). -/
def dumps : JVal → String
  | .null => "null"
  | .bool true => "true"
  | .bool false => "false"
  | .int n => toString n
  | .float (.fin q) => pyFloatRepr q
  | .float .nan => "NaN"
  | .float .inf => "Infinity"
  | .float .ninf => "-Infinity"
  | .str s => jsonStr s
  | .arr xs => "[" ++ dumpsArr xs ++ "]"
  | .obj kvs => "\x7b" ++ dumpsObj kvs ++ "\x7d"

/-- Comma-separated serialization of array elements. -/
def dumpsArr : JArr → String
  | .nil => ""
  | .cons x .nil => dumps x
  | .cons x xs => dumps x ++ "," ++ dumpsArr xs

/-- Comma-separated serialization of object entries (`"key":value`). -/
def dumpsObj : JObj → String
  | .nil => ""
  | .cons k v .nil => jsonStr k ++ ":" ++ dumps v
  | .cons k v tl => jsonStr k ++ ":" ++ dumps v ++ "," ++ dumpsObj tl
end

namespace StableHasher

/-- Embedding of `StableHasher.sha256_json`
(`src/mcp_robot/runtime/determinism.py`): canonicalize, serialize, digest.
The SHA-256 digest primitive (`hashlib.sha256(...).hexdigest()`) is a library
call, not repository code; it is passed in as the parameter `h`.  Note the
function is total on JSON-serializable values: non-finite floats pass through
`round` unchanged and `json.dumps` serializes them (`allow_nan` defaults to
`True`), so a digest is always returned. -/
def sha256_json (h : String → String) (obj : JVal) (float_round : ℕ := 6) :
    String :=
  h (dumps (canonicalize float_round obj))

end StableHasher

/-- Python `f"{x:.df}"` fixed-point formatting of a nonnegative rational. -/
def fmtFixedNN (d : ℕ) (q : ℚ) : String :=
  let scaled : ℕ := (round (q * 10 ^ d) : ℤ).toNat
  let ip := scaled / 10 ^ d
  let fp := scaled % 10 ^ d
  let fpStr := natDigits fp
  natDigits ip ++
    (if d = 0 then ""
     else "." ++ String.mk (List.replicate (d - fpStr.length) '0') ++ fpStr)

/-- Python `f"{x:.df}"` fixed-point formatting (`f"{-0.001:.2f}" = "-0.00"`;
half-up instead of Python's half-even, no claim evaluates a tie). -/
def fmtFixed (d : ℕ) (q : ℚ) : String :=
  if q < 0 then "-" ++ fmtFixedNN d (-q) else fmtFixedNN d q

/-! ## Contracts (`src/mcp_robot/contracts/schemas.py`) -/

/-- `SCHEMA_VERSION` from `contracts/schemas.py`. -/
def SCHEMA_VERSION : String := "2.0.0"

/-- `JointState`: a single waypoint of a joint trajectory. -/
structure JointState where
  names : List String
  positions : List ℚ
  velocities : Option (List ℚ) := none
  effort : Option (List ℚ) := none
deriving DecidableEq

/-- `JointTrajectoryChunk` (flattened with its `ActionChunk` base fields). -/
structure JointTrajectoryChunk where
  chunk_id : String
  plan_id : String
  ordinal : ℤ
  type : String := "trajectory"
  timestamp : Option ℚ := none
  description : String
  schema_version : String := SCHEMA_VERSION
  joint_names : List String
  waypoints : List JointState
  duration : ℚ
  max_force_est : ℚ := 0
  stability_score : ℚ := 1
deriving DecidableEq

/-- `RobotStateSnapshot`. -/
structure RobotStateSnapshot where
  joint_names : List String
  joint_positions : List ℚ
  joint_velocities : Option (List ℚ) := none
  base_vel : ℚ := 0
  payload : ℚ := 0
  timestamp : Option ℚ := none
  schema_version : String := SCHEMA_VERSION
deriving DecidableEq

/-- `RobotStateSnapshot.to_ordered_dict`: joint positions as a name-keyed
dict (insertion order = `zip` order). -/
def RobotStateSnapshot.to_ordered_dict (s : RobotStateSnapshot) :
    List (String × ℚ) :=
  s.joint_names.zip s.joint_positions

/-- `PerceptionSnapshot`.  `detected_objects` entries and `tactile_summary`
are untyped dicts in the source (`List Dict[str, Any]` / `Dict[str, Any]`),
modelled as JSON values. -/
structure PerceptionSnapshot where
  camera_frame_digest : String
  detected_objects : List JObj := []
  tactile_summary : JObj := .nil
  timestamp : Option ℚ := none
  schema_version : String := SCHEMA_VERSION

/-! ## Digital twin (`src/mcp_robot/simulation/kinematic_sim.py`) -/

/-- Mutable state of `KinematicSimulator`. -/
structure SimState where
  joint_angles : List (String × ℚ)
  payload_mass : ℚ
  base_velocity : ℚ
  last_update : ℚ
deriving DecidableEq

/-- The dict returned by `KinematicSimulator.get_state_vector`. -/
structure SimStateVec where
  joints : List (String × ℚ)
  payload : ℚ
  base_vel : ℚ
deriving DecidableEq

/-- `KinematicSimulator.__init__` joint map: seven joints at zero. -/
def initJointAngles : List (String × ℚ) :=
  [("joint_1", 0), ("joint_2", 0), ("joint_3", 0), ("joint_4", 0),
   ("joint_5", 0), ("joint_6", 0), ("joint_7", 0)]

/-- `KinematicSimulator.__init__` (`last_update = time.time()` takes the wall
clock at construction). -/
def initSim (wall : ℚ) : SimState :=
  { joint_angles := initJointAngles, payload_mass := 0, base_velocity := 0,
    last_update := wall }

/-- `KinematicSimulator.set_joint_state`: positional overwrite of the joint
map's values, keeping any tail beyond `new_angles` unchanged. -/
def SimState.set_joint_state (s : SimState) (new_angles : List ℚ) : SimState :=
  { s with joint_angles :=
      s.joint_angles.enum.map fun p => (p.2.1, (new_angles.get? p.1).getD p.2.2) }

/-- `KinematicSimulator.step`: only refreshes `last_update` from the wall
clock (`time.time()`, not the freezable global clock). -/
def SimState.step (s : SimState) (wall : ℚ) : SimState :=
  { s with last_update := wall }

/-- `KinematicSimulator.get_state_vector`. -/
def SimState.get_state_vector (s : SimState) : SimStateVec :=
  ⟨s.joint_angles, s.payload_mass, s.base_velocity⟩

/-! ## Physics verifier (`src/mcp_robot/verification/physics_engine.py`) -/

namespace PhysicsEngine

/-- `PhysicsEngine.calculate_zmp_score`: baseline 1.0, a velocity penalty of
`0.4 · base_velocity` applied only when `base_velocity > 0`, a payload
penalty of `0.05 · payload_mass · joint_extension` applied only when
`payload_mass > 0`, clamped to `[0, 1]`. -/
def calculate_zmp_score (base_velocity payload_mass joint_extension : ℚ) : ℚ :=
  let score : ℚ := 1.0
  let score := if base_velocity > 0 then score - base_velocity * 0.4 else score
  let score :=
    if payload_mass > 0 then score - payload_mass * 0.05 * joint_extension
    else score
  pyMax 0.0 (pyMin 1.0 score)

/-- `PhysicsEngine.estimate_end_effector_force`. -/
def estimate_end_effector_force (accel payload_mass : ℚ) : ℚ :=
  (15.0 + payload_mass) * pyMax accel 4.0

/-- Joint-limit lookup: `joint_limits.get(name, default) if joint_limits else
default` with `default_limit = (-3.14, 3.14)`. -/
def limitFor (joint_limits : Option (List (String × (ℚ × ℚ))))
    (name : String) : ℚ × ℚ :=
  match joint_limits with
  | none => (-3.14, 3.14)
  | some ls => (List.lookup name ls).getD (-3.14, 3.14)

/-- Check 1 of `verify_trajectory` (continuity / anti-teleportation): the
first joint of `trajectory.joint_names` that has an entry in the current
joint map and whose waypoint-0 position differs from it by more than the
`tolerance = 0.5` rad yields the error; joints absent from the current map
are skipped. -/
def continuityCheck (t : JointTrajectoryChunk)
    (current_joints : List (String × ℚ)) : Option String :=
  let start_wp := t.waypoints.headD ⟨[], [], none, none⟩
  t.joint_names.enum.findSome? fun p =>
    match List.lookup p.2 current_joints with
    | none => none
    | some cv =>
      let sv := start_wp.positions.getD p.1 0
      if pyAbs (cv - sv) > 0.5 then
        some ("Continuity Error: Joint " ++ p.2 ++ " jumps from " ++
          fmtFixed 2 cv ++ " to " ++ fmtFixed 2 sv)
      else none

/-- Check 2 of `verify_trajectory`, for one waypoint: the names-mismatch test
followed by the per-position joint-limit test (the source indexes
`trajectory.joint_names[j_idx]`, in-bounds because the names just compared
equal and `JointState` validates `|positions| = |names|`). -/
def waypointCheck (joint_names : List String)
    (joint_limits : Option (List (String × (ℚ × ℚ)))) (i : ℕ)
    (wp : JointState) : Option String :=
  if wp.names ≠ joint_names then
    some ("Waypoint " ++ toString i ++ " joint names mismatch")
  else
    wp.positions.enum.findSome? fun p =>
      let j_name := joint_names.getD p.1 ""
      let lim := limitFor joint_limits j_name
      if ¬ (lim.1 ≤ p.2 ∧ p.2 ≤ lim.2) then
        some ("Joint " ++ j_name ++ " limit violation: " ++ fmtFixed 2 p.2 ++
          " not in [" ++ pyFloatRepr lim.1 ++ ", " ++ pyFloatRepr lim.2 ++ "]")
      else none

/-- Check 2 of `verify_trajectory` over all waypoints in order. -/
def waypointsCheck (t : JointTrajectoryChunk)
    (joint_limits : Option (List (String × (ℚ × ℚ)))) : Option String :=
  t.waypoints.enum.findSome? fun p => waypointCheck t.joint_names joint_limits p.1 p.2

/-- Check 3 of `verify_trajectory` (force, `limit_force = 100.0`). -/
def forceCheck (t : JointTrajectoryChunk) : Option String :=
  if t.max_force_est > 100.0 then
    some ("Force Limit Exceeded: " ++ fmtFixed 1 t.max_force_est ++ "N > " ++
      pyFloatRepr 100.0 ++ "N")
  else none

/-- Check 4 of `verify_trajectory` (global ZMP stability, extension `0.5`,
threshold `0.4`). -/
def stabilityCheck (current_state : SimStateVec) : Option String :=
  let zmp := calculate_zmp_score current_state.base_vel current_state.payload 0.5
  if zmp < 0.4 then
    some ("ZMP Critical: Unstable (Score: " ++ fmtFixed 2 zmp ++ ")")
  else none

/-- Result dict of `verify_trajectory`. -/
structure VerifyResult where
  valid : Bool
  reason : String
deriving DecidableEq

/-- `PhysicsEngine.verify_trajectory`: the source's early returns translate
to this check chain — continuity, then per-waypoint names/limits, then
force, then stability; success reason is the source's literal string. -/
def verify_trajectory (t : JointTrajectoryChunk) (current_state : SimStateVec)
    (joint_limits : Option (List (String × (ℚ × ℚ))) := none) : VerifyResult :=
  match continuityCheck t current_state.joints with
  | some r => ⟨false, r⟩
  | none =>
    match waypointsCheck t joint_limits with
    | some r => ⟨false, r⟩
    | none =>
      match forceCheck t with
      | some r => ⟨false, r⟩
      | none =>
        match stabilityCheck current_state with
        | some r => ⟨false, r⟩
        | none => ⟨true, "Trajectory within Safe Operating Envelope"⟩

end PhysicsEngine

/-! ## String helpers (Python `str` operations used by the decomposer) -/

/-- ASCII lowercasing, modelling `str.lower()` on the ASCII instructions this
repository handles. -/
def toLowerStr (s : String) : String := String.mk (s.data.map Char.toLower)

/-- Whether `ns` is an initial segment of `hs`. -/
def subAt : List Char → List Char → Bool
  | [], _ => true
  | _ :: _, [] => false
  | n :: ns, h :: hs => n == h && subAt ns hs

/-- Whether `ns` occurs contiguously in `hs`. -/
def hasSubList (ns : List Char) : List Char → Bool
  | [] => ns.isEmpty
  | h :: hs => subAt ns (h :: hs) || hasSubList ns hs

/-- Python's `needle in hay` on strings (contiguous substring; the empty
needle matches everything). -/
def strHasSub (hay needle : String) : Bool := hasSubList needle.data hay.data

/-- First-match lookup in a JSON object (Python `dict.get` on the untyped
perception dicts). -/
def JObj.lookup : JObj → String → Option JVal
  | .nil, _ => none
  | .cons k v tl, key => if k = key then some v else JObj.lookup tl key

/-- String-valued field of an untyped dict, or `none`. -/
def objGetStr (o : JObj) (k : String) : Option String :=
  match o.lookup k with
  | some (.str s) => some s
  | _ => none

/-! ## Task decomposer (`src/mcp_robot/planning/task_decomposer.py`) -/

namespace ALOHATaskDecomposer

/-- A subtask dict as built by `ALOHATaskDecomposer.decompose_task`. -/
structure Subtask where
  type : String
  target_object : String
  estimated_duration : ℚ
  criticality : String
  force_requirements : String
deriving DecidableEq

/-- The decomposer's `action_map`, in Python dict insertion order. -/
def action_map : List (String × List String) :=
  [("pick", ["walk_to", "scan_workspace", "grasp_approach", "grasp_close", "lift"]),
   ("place", ["walk_to", "release"]),
   ("move", ["grasp_approach", "grasp_close", "lift", "move_to", "release"])]

/-- `ALOHATaskDecomposer._resolve_target` (the `action_type` argument is
unused in the source body).  A detected object that matches but lacks a
string `"type"` would raise `KeyError` in Python; the documented object shape
always carries one, and the fallback `""` here is never observable for such
inputs. -/
def resolve_target (instruction : String) (objects : List JObj) : String :=
  match objects.find? (fun o =>
      strHasSub instruction (toLowerStr ((objGetStr o "type").getD ""))) with
  | some o => (objGetStr o "type").getD ""
  | none =>
    if strHasSub instruction "cube" then "cube"
    else if strHasSub instruction "apple" then "apple"
    else if strHasSub instruction "bin" then "bin"
    else "object"

/-- `ALOHATaskDecomposer._get_duration`. -/
def get_duration (action_type : String) : ℚ :=
  (List.lookup action_type
    [("walk_to", (4.0 : ℚ)), ("grasp_approach", 2.0), ("grasp_close", 0.5),
     ("lift", 1.0), ("release", 0.5), ("scan_workspace", 1.0),
     ("idle", 0.0)]).getD 1.0

/-- `ALOHATaskDecomposer._assess_criticality`. -/
def assess_criticality (action_type : String) : String :=
  if action_type ∈ ["grasp_close", "lift", "release"] then "high"
  else if action_type ∈ ["grasp_approach", "move_to", "walk_to"] then "medium"
  else "low"

/-- `ALOHATaskDecomposer.decompose_task`.  The `task_digest` the source
computes is only logged, never used, and is omitted; `vision_frame` is passed
as `None` by the pipeline and unused. -/
def decompose_task (task_instruction : String) (detected_objects : List JObj) :
    List Subtask :=
  let il := toLowerStr task_instruction
  let planned_actions :=
    action_map.foldl
      (fun acc kv => if strHasSub il kv.1 then acc ++ kv.2 else acc) []
  let planned_actions := if planned_actions.isEmpty then ["idle"] else planned_actions
  planned_actions.map fun action_type =>
    { type := action_type,
      target_object := resolve_target il detected_objects,
      estimated_duration := get_duration action_type,
      criticality := assess_criticality action_type,
      force_requirements :=
        if strHasSub action_type "grasp_close" then "gentle" else "normal" }

end ALOHATaskDecomposer

/-! ## Long-horizon planner (`src/mcp_robot/planning/long_horizon_planner.py`,
the `mcp_robot` deterministic variant) -/

namespace ACTLongHorizonPlanner

open ALOHATaskDecomposer (Subtask)

/-- `DeterministicVis.encode`: `np.full(256, np.mean(frame) if frame is not
None else 0.5)`.  The embedding is a constant vector, represented by that
constant; frames only ever enter through their mean. -/
def deterministicVisEncode (frameMean : Option ℚ) : ℚ := frameMean.getD 0.5

/-- `DeterministicEmb.encode`: `sum(ord(c) for c in text) % 256 / 256.0`
(again a constant 256-vector, represented by the constant). -/
def deterministicEmbEncode (text : String) : ℚ :=
  (((text.data.map Char.toNat).sum % 256 : ℕ) : ℚ) / 256

/-- `ACTLongHorizonPlanner._encode_subtask`: `np.full(32, type_map.get(type,
0.5))` with `type_map = {walk_to: 0.1, pick: 0.2, place: 0.3, scan: 0.4}`. -/
def encode_subtask (subtask_type : String) : ℚ :=
  (List.lookup subtask_type
    [("walk_to", (0.1 : ℚ)), ("pick", 0.2), ("place", 0.3),
     ("scan", 0.4)]).getD 0.5

/-- `TransformerDecoderForPlanning.predict`: `seed_val = mean(vision) +
mean(task) + mean(subtask_spec)`; chunk `i`'s latent is the constant 64-vector
`np.full(64, (seed_val + i*0.1) % 1.0)`.  No randomness and no hashing is
involved. -/
def predict (visionMean taskMean specMean : ℚ) (num_chunks : ℕ) :
    List (List ℚ) :=
  let seed_val := visionMean + taskMean + specMean
  (List.range num_chunks).map fun (i : ℕ) =>
    List.replicate 64 (pyMod1 (seed_val + (i : ℚ) * 0.1))

/-- A raw action-chunk dict as built by `_plan_subtask_chunks`. -/
structure RawChunk where
  id : ℕ
  subtask_id : String
  latent : List ℚ
  position_waypoints : List (List ℚ)
  force_profile : List ℚ
  duration_s : ℚ
  criticality : String
deriving DecidableEq

/-- `ACTLongHorizonPlanner._decode_positions`: 50 waypoints drifting in x
from `(latent[0]*0.5, latent[1]*0.5, latent[2]*0.5)`. -/
def decode_positions (latent : List ℚ) : List (List ℚ) :=
  let base_x := latent.getD 0 0 * 0.5
  let base_y := latent.getD 1 0 * 0.5
  let base_z := latent.getD 2 0 * 0.5
  (List.range 50).map fun (i : ℕ) => [base_x + (i : ℚ) * 0.005, base_y, base_z]

/-- `ACTLongHorizonPlanner._decode_forces`. -/
def decode_forces (latent : List ℚ) : List ℚ :=
  (List.range 50).map fun _ => latent.getD 3 0 * 20.0

/-- `ACTLongHorizonPlanner._plan_subtask_chunks` (the `robot_state` argument
is unused in the source body). -/
def plan_subtask_chunks (subtask : Subtask) (visionMean taskMean : ℚ)
    (start_chunk_id : ℕ) : List RawChunk :=
  let est_duration := subtask.estimated_duration
  let num_chunks := max 1 (pyTrunc (est_duration / (50 / 30))).toNat
  let latent_chunks :=
    predict visionMean taskMean (encode_subtask subtask.type) num_chunks
  latent_chunks.enum.map fun p =>
    { id := start_chunk_id + p.1,
      subtask_id := subtask.type,
      latent := p.2,
      position_waypoints := decode_positions p.2,
      force_profile := decode_forces p.2,
      duration_s := 50 / 30,
      criticality := subtask.criticality }

/-- `ACTLongHorizonPlanner.plan_action_chunks`, returning the `"chunks"`
entry of the result dict (the only one the pipeline consumes).  The pipeline
passes `current_frame=None`, which the source replaces by a zero image, so
the vision mean is `0`. -/
def plan_action_chunks (subtasks : List Subtask) (task_instruction : String) :
    List RawChunk :=
  let vision_emb := deterministicVisEncode (some 0)
  let task_emb := deterministicEmbEncode task_instruction
  (subtasks.foldl
    (fun (acc : List RawChunk × ℕ) subtask =>
      let subtask_chunks := plan_subtask_chunks subtask vision_emb task_emb acc.2
      (acc.1 ++ subtask_chunks, acc.2 + subtask_chunks.length))
    ([], 0)).1

end ACTLongHorizonPlanner

/-! ## Robot profile (`MRCPUnifiedPipeline.__init__`, `src/mcp_robot/pipeline.py`) -/

/-- Per-axis workspace bounds (`min`, `max`). -/
structure Workspace where
  x : ℚ × ℚ
  y : ℚ × ℚ
  z : ℚ × ℚ
deriving DecidableEq

/-- The pipeline's fixed `robot_profile` dict. -/
structure RobotProfile where
  workspace : Workspace
  gripper_max_force_n : ℚ
  joint_names : List String
  joint_limits : List (String × (ℚ × ℚ))
deriving DecidableEq

/-- The literal `robot_profile` constructed in `MRCPUnifiedPipeline.__init__`. -/
def mcpRobotProfile : RobotProfile :=
  { workspace := ⟨(-1.0, 1.0), (-1.0, 1.0), (0.0, 1.0)⟩,
    gripper_max_force_n := 100.0,
    joint_names := ["joint_1", "joint_2", "joint_3", "joint_4", "joint_5",
                    "joint_6", "joint_7"],
    joint_limits :=
      [("joint_1", (-3.14, 3.14)), ("joint_2", (-2.0, 2.0)),
       ("joint_3", (-3.14, 3.14)), ("joint_4", (-3.14, 3.14)),
       ("joint_5", (-3.14, 3.14)), ("joint_6", (-3.14, 3.14)),
       ("joint_7", (-6.28, 6.28))] }

/-! ## Tactile encoder (`src/mcp_robot/action_encoder/visio_tactile_action_encoder.py`) -/

namespace VisioTactileActionEncoder

open ACTLongHorizonPlanner (RawChunk)

/-- The dict returned by `FusionModel.predict_tactile`, after the renaming in
`_predict_tactile_from_vision`. -/
structure PredictedTactile where
  friction_coefficient : ℚ
  surface_texture : String
  slip_probability : ℚ
  material_class : String
deriving DecidableEq

/-- `FusionModel.predict_tactile` is a mock returning a constant dict; its
`vision_embedding` and `target_object` arguments are ignored (the embedding
is a fresh `np.random.rand(256)` draw whose value therefore never reaches the
output). -/
def predict_tactile (visionEmbedding : List ℚ) (targetObjType : String) :
    PredictedTactile :=
  { friction_coefficient := 0.5, surface_texture := "smooth",
    slip_probability := 0.1, material_class := "plastic" }

/-- `VisioTactileActionEncoder._get_target_object` is a mock that ignores the
detected objects and the chunk: `{"mass": 0.5, "type": "cube"}`. -/
def get_target_object_mass (detected_objects : List JObj) (chunk : RawChunk) :
    ℚ :=
  0.5

/-- `VisioTactileActionEncoder._compute_safe_grip_force`: minimum grip from
`m·g/(μ·2)`, a 1.5 safety factor, capped at `0.7 ×` the gripper's max force
(`robot_profile["gripper"]["max_force_n"]`, default `100`). -/
def compute_safe_grip_force (profile : RobotProfile) (mass_kg friction : ℚ) :
    ℚ :=
  let gravity : ℚ := 9.81
  let num_fingers : ℚ := 2
  let min_grip_force := (mass_kg * gravity * 1.0) / (friction * num_fingers)
  let safe_grip_force := min_grip_force * 1.5
  let max_force := profile.gripper_max_force_n
  pyMin safe_grip_force (max_force * 0.7)

/-- One entry of `tactile_waypoints`. -/
structure TactileWaypoint where
  position : List ℚ
  grip_force_n : ℚ
  predicted_friction : ℚ
  slip_threshold : ℚ
  slip_recovery : String
  monitor_tactile : Bool
  predicted_zmp : ℚ × ℚ
deriving DecidableEq

/-- An augmented chunk: `chunk.copy()` plus the two added keys. -/
structure AugChunk where
  raw : RawChunk
  tactile_waypoints : List TactileWaypoint
  is_tactile_critical : Bool
deriving DecidableEq

/-- `VisioTactileActionEncoder._predict_zmp_shift`. -/
def predict_zmp_shift (waypoint : List ℚ) : ℚ × ℚ :=
  ((waypoint.getD 0 0 - 0.5) * 0.1, (waypoint.getD 1 0 - 0.5) * 0.1)

/-- `VisioTactileActionEncoder.augment_chunks_with_tactile`.  `visionEmb`
stands for the per-call `np.random.rand(256)` draws inside
`_predict_tactile_from_vision`; the fusion mock ignores it, so it cannot
influence the result. -/
def augment_chunks_with_tactile (profile : RobotProfile)
    (chunks : List RawChunk) (detected_objects : List JObj)
    (visionEmb : List ℚ) : List AugChunk :=
  chunks.map fun chunk =>
    { raw := chunk,
      tactile_waypoints := chunk.position_waypoints.map fun waypoint =>
        let predicted := predict_tactile visionEmb "cube"
        let grip_force := compute_safe_grip_force profile
          (get_target_object_mass detected_objects chunk)
          predicted.friction_coefficient
        { position := waypoint,
          grip_force_n := grip_force,
          predicted_friction := predicted.friction_coefficient,
          slip_threshold := grip_force * 0.2,
          slip_recovery := "automatic_force_increase",
          monitor_tactile := chunk.criticality == "high",
          predicted_zmp := predict_zmp_shift waypoint },
      is_tactile_critical :=
        chunk.criticality == "high" || chunk.criticality == "medium" }

end VisioTactileActionEncoder

/-! ## Universal mapper (`src/mcp_robot/action_encoder/universal_action_encoder.py`) -/

namespace UniversalActionEncoder

open VisioTactileActionEncoder (AugChunk)

/-- `UniversalActionEncoder._denormalize`: `[0,1]³ → world` per axis. -/
def denormalize (pos : List ℚ) (ws : Workspace) : ℚ × ℚ × ℚ :=
  (ws.x.1 + pos.getD 0 0 * (ws.x.2 - ws.x.1),
   ws.y.1 + pos.getD 1 0 * (ws.y.2 - ws.y.1),
   ws.z.1 + pos.getD 2 0 * (ws.z.2 - ws.z.1))

/-- `UniversalActionEncoder.map_chunks_to_robot`, parameterized by the IK
primitive: `solveIK` stands for `_solve_ik`, whose numpy trig arithmetic
(atan2/sqrt/acos over a 2-link geometry, outputs rounded to 6 decimals) is
external library computation irrelevant to every claim; every theorem below
quantifies over it.  The walking `current_joints` accumulator starts from the
caller's dict and is reset to the chunk's IK target after each chunk; a chunk
only receives a start waypoint when the accumulator dict is non-empty
(`if current_joints:`).  The chunk dicts carry no `"description"` or
`"estimated_force"` keys, so `chunk.get` yields the defaults `"trajectory"`
and `0.0`. -/
def map_chunks_to_robot (solveIK : ℚ × ℚ × ℚ → List ℚ)
    (profile : RobotProfile) : List AugChunk → List (String × ℚ) →
    List JointTrajectoryChunk
  | [], _ => []
  | chunk :: rest, cj =>
    let joint_names := profile.joint_names
    let raw_target_pos := chunk.raw.position_waypoints.getLastD []
    let world_target := denormalize raw_target_pos profile.workspace
    let start_wps : List JointState :=
      if cj.isEmpty then []
      else [{ names := joint_names,
              positions := joint_names.map fun n => (List.lookup n cj).getD 0.0 }]
    let target_joint_pos := solveIK world_target
    let trajectory_waypoints :=
      start_wps ++ [{ names := joint_names, positions := target_joint_pos }]
    let traj : JointTrajectoryChunk :=
      { chunk_id := "tmp", plan_id := "tmp", ordinal := 0,
        description := "trajectory",
        joint_names := joint_names,
        waypoints := trajectory_waypoints,
        duration := chunk.raw.duration_s,
        max_force_est := 0.0 }
    traj :: map_chunks_to_robot solveIK profile rest (joint_names.zip target_joint_pos)

end UniversalActionEncoder

/-! ## Determinism kernel objects (`src/mcp_robot/runtime/determinism.py`) -/

/-- `DeterminismConfig`. -/
structure DeterminismConfig where
  seed : ℤ := 42
  float_round : ℤ := 6
  stable_json : Bool := true
  deterministic_mode : Bool := true
deriving DecidableEq

/-- The global `Clock`: `now()` returns the frozen value when set, otherwise
the wall time (`time.time()`), which is modelled as an explicit input. -/
structure Clock where
  frozen : Option ℚ
  wall : ℚ
deriving DecidableEq

/-- `Clock.now`. -/
def Clock.now (c : Clock) : ℚ := c.frozen.getD c.wall

/-! ## `model_dump` embeddings (pydantic serialization, field order) -/

/-- A finite JSON float. -/
def jnum (q : ℚ) : JVal := .float (.fin q)

/-- An optional float field (`None → null`). -/
def jOptNum : Option ℚ → JVal
  | none => .null
  | some q => jnum q

/-- A JSON array of floats. -/
def jNumArr (qs : List ℚ) : JVal := .arr (JArr.ofList (qs.map jnum))

/-- An optional float-list field. -/
def jOptNumArr : Option (List ℚ) → JVal
  | none => .null
  | some qs => jNumArr qs

/-- A JSON array of strings. -/
def jStrArr (ss : List String) : JVal := .arr (JArr.ofList (ss.map .str))

/-- `DeterminismConfig.model_dump()`. -/
def DeterminismConfig.model_dump (c : DeterminismConfig) : JObj :=
  JObj.ofList
    [("seed", .int c.seed), ("float_round", .int c.float_round),
     ("stable_json", .bool c.stable_json),
     ("deterministic_mode", .bool c.deterministic_mode)]

/-- `RobotStateSnapshot.model_dump()`. -/
def RobotStateSnapshot.model_dump (s : RobotStateSnapshot) : JObj :=
  JObj.ofList
    [("joint_names", jStrArr s.joint_names),
     ("joint_positions", jNumArr s.joint_positions),
     ("joint_velocities", jOptNumArr s.joint_velocities),
     ("base_vel", jnum s.base_vel), ("payload", jnum s.payload),
     ("timestamp", jOptNum s.timestamp),
     ("schema_version", .str s.schema_version)]

/-- `PerceptionSnapshot.model_dump()`. -/
def PerceptionSnapshot.model_dump (p : PerceptionSnapshot) : JObj :=
  JObj.ofList
    [("camera_frame_digest", .str p.camera_frame_digest),
     ("detected_objects", .arr (JArr.ofList (p.detected_objects.map .obj))),
     ("tactile_summary", .obj p.tactile_summary),
     ("timestamp", jOptNum p.timestamp),
     ("schema_version", .str p.schema_version)]

/-- `JointState.model_dump()`. -/
def JointState.model_dump (w : JointState) : JObj :=
  JObj.ofList
    [("names", jStrArr w.names), ("positions", jNumArr w.positions),
     ("velocities", jOptNumArr w.velocities),
     ("effort", jOptNumArr w.effort)]

/-- `JointTrajectoryChunk.model_dump()` (base `ActionChunk` fields first, in
pydantic declaration order). -/
def JointTrajectoryChunk.model_dump (t : JointTrajectoryChunk) : JObj :=
  JObj.ofList
    [("chunk_id", .str t.chunk_id), ("plan_id", .str t.plan_id),
     ("ordinal", .int t.ordinal), ("type", .str t.type),
     ("timestamp", jOptNum t.timestamp), ("description", .str t.description),
     ("schema_version", .str t.schema_version),
     ("joint_names", jStrArr t.joint_names),
     ("waypoints", .arr (JArr.ofList (t.waypoints.map fun w => .obj w.model_dump))),
     ("duration", jnum t.duration), ("max_force_est", jnum t.max_force_est),
     ("stability_score", jnum t.stability_score)]

/-- `TaskPlan`. -/
structure TaskPlan where
  plan_id : String
  instruction : String
  input_digest : String
  config_digest : String
  chunks : List JointTrajectoryChunk
  created_at : Option ℚ := none
  schema_version : String := SCHEMA_VERSION
deriving DecidableEq

/-- `TaskPlan.model_dump()`. -/
def TaskPlan.model_dump (p : TaskPlan) : JObj :=
  JObj.ofList
    [("plan_id", .str p.plan_id), ("instruction", .str p.instruction),
     ("input_digest", .str p.input_digest),
     ("config_digest", .str p.config_digest),
     ("chunks", .arr (JArr.ofList (p.chunks.map fun c => .obj c.model_dump))),
     ("created_at", jOptNum p.created_at),
     ("schema_version", .str p.schema_version)]

/-! ## Execution adapter (`src/mcp_robot/execution/ros_interface.py`, SIM mode) -/

/-- The uniform result dict of `ROS2Adapter`. -/
structure RosResult where
  success : Bool
  error_code : ℤ
  error_string : String
deriving DecidableEq

/-- `ROS2Adapter._simulate_execution`: always succeeds (the `asyncio.sleep`
loop only burns time). -/
def simulate_execution (trajectory : JointTrajectoryChunk) : RosResult :=
  { success := true, error_code := 0, error_string := "Goal Reached (Simulated)" }

/-! ## Pipeline orchestrator (`src/mcp_robot/pipeline.py`) -/

namespace MRCPUnifiedPipeline

open ALOHATaskDecomposer ACTLongHorizonPlanner VisioTactileActionEncoder
open UniversalActionEncoder StableHasher PhysicsEngine

/-- A result dict of `execute_chunk` (keys present as in the source's three
result shapes). -/
structure ExecResult where
  status : String
  reason : Option String := none
  ros_result : Option RosResult := none
  executed_at : Option ℚ := none
deriving DecidableEq

/-- The orchestrator's mutable state: `active_plans`, the
`execution_results` idempotency cache, and the digital twin. -/
structure PipelineState where
  active_plans : List (String × TaskPlan)
  execution_results : List (String × ExecResult)
  sim : SimState
deriving DecidableEq

/-- A fresh pipeline (`MRCPUnifiedPipeline.__init__`): empty plan and result
caches, twin at the all-zero home pose. -/
def freshState (wall : ℚ) : PipelineState :=
  { active_plans := [], execution_results := [], sim := initSim wall }

/-- `MRCPUnifiedPipeline.process_task`: deterministic planning entrypoint.
`h` is the SHA-256 hex-digest primitive, `solveIK` the IK primitive and
`visionEmb` the tactile encoder's ignored `np.random.rand(256)` draw (see the
respective definitions).  Returns the plan and the updated pipeline state. -/
def process_task (h : String → String) (solveIK : ℚ × ℚ × ℚ → List ℚ)
    (config : DeterminismConfig) (instruction : String)
    (perception : PerceptionSnapshot) (state : RobotStateSnapshot)
    (clock : Clock) (visionEmb : List ℚ) (ps : PipelineState) :
    TaskPlan × PipelineState :=
  let input_digest := sha256_json h (.obj (JObj.ofList
    [("instruction", .str instruction),
     ("perception", .obj perception.model_dump),
     ("state", .obj state.model_dump)]))
  let config_digest := sha256_json h (.obj config.model_dump)
  let plan_id := sha256_json h (.obj (JObj.ofList
    [("input_digest", .str input_digest),
     ("config_digest", .str config_digest),
     ("schema_version", .str state.schema_version)]))
  match List.lookup plan_id ps.active_plans with
  | some plan => (plan, ps)
  | none =>
    let subtasks := decompose_task instruction perception.detected_objects
    let raw_chunks := plan_action_chunks subtasks instruction
    let augmented_chunks := augment_chunks_with_tactile mcpRobotProfile
      raw_chunks perception.detected_objects visionEmb
    let traj_objects := map_chunks_to_robot solveIK mcpRobotProfile
      augmented_chunks state.to_ordered_dict
    let final_chunks := traj_objects.enum.map fun p =>
      let payload_digest := sha256_json h (.obj p.2.model_dump)
      let chunk_id := sha256_json h (.obj (JObj.ofList
        [("plan_id", .str plan_id), ("ordinal", .int p.1),
         ("payload_digest", .str payload_digest)]))
      { p.2 with chunk_id := chunk_id, plan_id := plan_id, ordinal := p.1,
                 timestamp := some clock.now }
    let plan : TaskPlan :=
      { plan_id := plan_id, instruction := instruction,
        input_digest := input_digest, config_digest := config_digest,
        chunks := final_chunks, created_at := some clock.now }
    (plan, { ps with active_plans := (plan_id, plan) :: ps.active_plans })

/-- `MRCPUnifiedPipeline.execute_chunk`: idempotency cache, plan/chunk
resolution, Tier-5 safety gate against the twin's state vector, SIM
execution, deterministic twin update, result caching.  The clock's wall time
feeds `KinematicSimulator.step`'s `time.time()`; `executed_at` uses the
freezable global clock. -/
def execute_chunk (ps : PipelineState) (plan_id chunk_id : String)
    (clock : Clock) : ExecResult × PipelineState :=
  let exec_id := plan_id ++ ":" ++ chunk_id
  match List.lookup exec_id ps.execution_results with
  | some r => (r, ps)
  | none =>
    match List.lookup plan_id ps.active_plans with
    | none => ({ status := "ERROR",
                 reason := some ("Plan " ++ plan_id ++ " not found.") }, ps)
    | some plan =>
      match plan.chunks.find? (fun c => c.chunk_id == chunk_id) with
      | none => ({ status := "ERROR",
                   reason := some ("Chunk " ++ chunk_id ++ " not found.") }, ps)
      | some target_chunk =>
        let safety_report := verify_trajectory target_chunk
          ps.sim.get_state_vector (some mcpRobotProfile.joint_limits)
        if safety_report.valid = false then
          let result : ExecResult :=
            { status := "REJECTED", reason := some safety_report.reason }
          (result, { ps with
            execution_results := (exec_id, result) :: ps.execution_results })
        else
          let result := simulate_execution target_chunk
          let sim1 :=
            if result.success then
              ps.sim.set_joint_state
                (target_chunk.waypoints.getLastD ⟨[], [], none, none⟩).positions
            else ps.sim
          let sim2 := sim1.step clock.wall
          let final_result : ExecResult :=
            { status := if result.success then "SUCCESS" else "FAILED",
              ros_result := some result,
              executed_at := some clock.now }
          let ps2 : PipelineState :=
            { ps with
              sim := sim2,
              execution_results := (exec_id, final_result) :: ps.execution_results }
          (final_result, ps2)

end MRCPUnifiedPipeline

/-! ## Spec-side comparison definitions

These follow the specification's words (not the source) and exist solely to
be compared against the source-derived definitions above. -/

mutual
/-- Whether a JSON value contains a non-finite float — the condition under
which the spec's §4.1 says canonicalization must fail with
`NonCanonicalizable`. -/
def hasNonFinite : JVal → Bool
  | .float .nan | .float .inf | .float .ninf => true
  | .float (.fin _) => false
  | .arr xs => hasNonFiniteArr xs
  | .obj kvs => hasNonFiniteObj kvs
  | _ => false

/-- `hasNonFinite` over a JSON array. -/
def hasNonFiniteArr : JArr → Bool
  | .nil => false
  | .cons x xs => hasNonFinite x || hasNonFiniteArr xs

/-- `hasNonFinite` over a JSON object. -/
def hasNonFiniteObj : JObj → Bool
  | .nil => false
  | .cons _ v tl => hasNonFinite v || hasNonFiniteObj tl
end

/-- Modelled from the spec (§4.6): the claimed stability score
`clamp(1.0 − 0.3·|base_vel| − 0.05·payload·extension, 0, 1)`. -/
def specZmpScore (base_vel payload extension : ℚ) : ℚ :=
  pyMax 0 (pyMin 1 (1 - 0.3 * pyAbs base_vel - 0.05 * payload * extension))

/-- Modelled from the spec (§4.4): the claimed grip force
`clamp(round((mass·9.81)/(friction·2) · 1.5, 4), 0, 0.8·gripper.max_force_n)`. -/
def specGripForce (mass friction max_force_n : ℚ) : ℚ :=
  pyMax 0 (pyMin (roundTo 4 ((mass * 9.81) / (friction * 2) * 1.5)) (0.8 * max_force_n))

/-! ## Concrete fixtures used by counterexamples and witnesses -/

/-- A one-joint chunk whose start waypoint sits 0.3 rad from the twin: the
spec's claimed 0.1 rad continuity tolerance would reject it, the source's 0.5
rad tolerance accepts it. -/
def fixChunkJump03 : JointTrajectoryChunk :=
  { chunk_id := "c", plan_id := "p", ordinal := 0, description := "probe",
    joint_names := ["joint_1"],
    waypoints := [{ names := ["joint_1"], positions := [0.3] }],
    duration := 1.0 }

/-- A calm one-joint twin state vector (joint at zero, no payload, at rest). -/
def fixStateCalm : SimStateVec := ⟨[("joint_1", 0)], 0, 0⟩

/-- A one-joint chunk with `max_force_est = 150.0` (over the 100 N limit). -/
def fixChunkForce150 : JointTrajectoryChunk :=
  { chunk_id := "c", plan_id := "p", ordinal := 0, description := "probe",
    joint_names := ["joint_1"],
    waypoints := [{ names := ["joint_1"], positions := [0.0] }],
    duration := 1.0, max_force_est := 150.0 }

/-- A twin state vector sprinting at 3 m/s (fails the stability check). -/
def fixStateSprint : SimStateVec := ⟨[("joint_1", 0)], 0, 3.0⟩

/-- A benign one-joint chunk that passes every check against
`fixStateCalm`. -/
def fixChunkOK : JointTrajectoryChunk :=
  { chunk_id := "c", plan_id := "p", ordinal := 0, description := "probe",
    joint_names := ["joint_1"],
    waypoints := [{ names := ["joint_1"], positions := [0.0] }],
    duration := 1.0 }

/-- A chunk whose joint names are disjoint from the twin's joint map. -/
def fixChunkForeignNames : JointTrajectoryChunk :=
  { chunk_id := "c", plan_id := "p", ordinal := 0, description := "probe",
    joint_names := ["armA"],
    waypoints := [{ names := ["armA"], positions := [9.0] }],
    duration := 1.0 }

/-- The `walk_to` subtask dict the decomposer emits for a 4-second walk. -/
def fixSubtaskWalk : ALOHATaskDecomposer.Subtask :=
  { type := "walk_to", target_object := "object", estimated_duration := 4.0,
    criticality := "medium", force_requirements := "normal" }

/-- A default `RawChunk` (used as the `getD` fallback in closed statements;
its fields never match a generated chunk). -/
def fixRawDefault : ACTLongHorizonPlanner.RawChunk :=
  { id := 0, subtask_id := "", latent := [], position_waypoints := [],
    force_profile := [], duration_s := 0, criticality := "" }

/-- A raw chunk targeting two waypoints, for mapper fixtures. -/
def fixRawChunkA : ACTLongHorizonPlanner.RawChunk :=
  { id := 0, subtask_id := "walk_to", latent := List.replicate 64 0.1,
    position_waypoints := [[0.1, 0.2, 0.3], [0.4, 0.5, 0.6]],
    force_profile := [1.0], duration_s := 5/3, criticality := "medium" }

/-- A second raw chunk with different waypoints. -/
def fixRawChunkB : ACTLongHorizonPlanner.RawChunk :=
  { id := 1, subtask_id := "lift", latent := List.replicate 64 0.2,
    position_waypoints := [[0.7, 0.8, 0.9]],
    force_profile := [2.0], duration_s := 5/3, criticality := "high" }

/-- A perception object list containing one apple. -/
def fixObjsApple : List JObj :=
  [JObj.ofList [("type", .str "apple"), ("mass", jnum 0.2),
                ("friction_coefficient", jnum 0.5)]]

/-- Tactile augmentations of the two mapper fixtures. -/
def fixAugChunks : List VisioTactileActionEncoder.AugChunk :=
  VisioTactileActionEncoder.augment_chunks_with_tactile mcpRobotProfile
    [fixRawChunkA, fixRawChunkB] fixObjsApple []

/-- A constant IK stub used to instantiate `solveIK`-quantified theorems at a
concrete input. -/
def fixSolveIK (w : ℚ × ℚ × ℚ) : List ℚ := [w.1, w.2.1, w.2.2, 0, 0, 0, 0]

/-- A seven-joint all-zero start dict. -/
def fixStartJoints : List (String × ℚ) :=
  mcpRobotProfile.joint_names.map fun n => (n, 0)

/-- A passing seven-joint chunk stored under plan `"p"`, chunk `"c"`. -/
def fixChunkSeven : JointTrajectoryChunk :=
  { chunk_id := "c", plan_id := "p", ordinal := 0, description := "probe",
    joint_names := mcpRobotProfile.joint_names,
    waypoints := [{ names := mcpRobotProfile.joint_names,
                    positions := [0, 0, 0, 0, 0, 0, 0] },
                  { names := mcpRobotProfile.joint_names,
                    positions := [0.1, 0.2, 0, 0, 0, 0, 0] }],
    duration := 5/3 }

/-- A pipeline state holding one plan with the passing chunk, an empty result
cache, and the home-pose twin. -/
def fixPipelineState : MRCPUnifiedPipeline.PipelineState :=
  { active_plans :=
      [("p", { plan_id := "p", instruction := "probe", input_digest := "i",
               config_digest := "g", chunks := [fixChunkSeven] })],
    execution_results := [], sim := initSim 0 }

/-! # Theorems -/

set_option allowUnsafeReducibility true

attribute [local semireducible] Rat.mul Rat.add Rat.sub Rat.inv Rat.ofScientific

/-- `pyAbs` agrees with the lattice absolute value. -/
theorem pyAbs_eq_abs (q : ℚ) : pyAbs q = |q| := by
  unfold pyAbs
  rcases lt_trichotomy q 0 with h | h | h
  · rw [if_pos h, abs_of_neg h]
  · simp [h]
  · rw [if_neg (not_lt.mpr h.le), abs_of_pos h]

/-- `pyMax` agrees with the lattice max. -/
theorem pyMax_eq_max (a b : ℚ) : pyMax a b = max a b := by
  unfold pyMax
  rcases lt_trichotomy a b with h | h | h
  · rw [if_pos h, max_eq_right h.le]
  · simp [h]
  · rw [if_neg (not_lt.mpr h.le), max_eq_left h.le]

/-- `pyMin` agrees with the lattice min. -/
theorem pyMin_eq_min (a b : ℚ) : pyMin a b = min a b := by
  unfold pyMin
  rcases lt_trichotomy b a with h | h | h
  · rw [if_pos h, min_eq_right h.le]
  · simp [h]
  · rw [if_neg (not_lt.mpr h.le), min_eq_left h.le]

/-- `pyMin a b` is at most `b`. -/
theorem pyMin_le_right (a b : ℚ) : pyMin a b ≤ b := by
  rw [pyMin_eq_min]; exact min_le_right a b


open PhysicsEngine ALOHATaskDecomposer ACTLongHorizonPlanner
open VisioTactileActionEncoder UniversalActionEncoder StableHasher
open MRCPUnifiedPipeline

/-- C9 (counterexample): on the input `{"x": NaN}` — which contains a value
the spec calls non-canonicalizable — `sha256_json` does not abort: the float
passes through `round` unchanged, `json.dumps` serializes it as the `NaN`
token, and the digest of that string is returned. -/
theorem C9_counterexample :
    hasNonFinite (.obj (.cons "x" (.float .nan) .nil)) = true ∧
    sha256_json (fun s => "sha256:" ++ s) (.obj (.cons "x" (.float .nan) .nil))
      = "sha256:\x7b\"x\":NaN\x7d" :=
  ⟨rfl, rfl⟩

/-- C9 (amended): `sha256_json` never fails on non-finite floats — `round`
passes `NaN` through and `json.dumps` (with its default `allow_nan=True`)
serializes it as the `NaN` token, so for every digest primitive `h` the call
returns the digest of the NaN-bearing canonical serialization instead of
raising `NonCanonicalizable` (no such error path exists in the source). -/
theorem C9_nan_hashes (h : String → String) :
    sha256_json h (.obj (.cons "x" (.float .nan) .nil)) = h "\x7b\"x\":NaN\x7d" ∧
    pyRound 6 .nan = .nan :=
  ⟨rfl, rfl⟩

/-- C5 (counterexample): with `base_velocity = 3.0` and zero payload the
source's score is `max 0 (1 − 0.4·3) = 0`, not the claimed
`clamp(1 − 0.3·3, 0, 1) = 0.1`, and the rejection reason is
`"ZMP Critical: Unstable (Score: 0.00)"`, which does not contain
`"Stability"`. -/
theorem C5_counterexample :
    calculate_zmp_score 3.0 0 0.5 = 0 ∧
    specZmpScore 3.0 0 0.5 = 1/10 ∧
    (0 : ℚ) ≠ 1/10 ∧
    stabilityCheck fixStateSprint = some "ZMP Critical: Unstable (Score: 0.00)" ∧
    strHasSub "ZMP Critical: Unstable (Score: 0.00)" "Stability" = false := by
  refine ⟨by decide, by decide, by decide, by decide, by decide⟩

/-- C5 (amended): the verifier computes
`zmp_score = clamp(1 − 0.4·base_vel·[base_vel>0] − 0.05·payload·0.5·[payload>0], 0, 1)`
and rejects exactly when `zmp_score < 0.4`; with `base_velocity = 3.0` and
zero payload the score is `0` and the chunk is rejected with a reason
containing `"ZMP Critical"`. -/
theorem C5_stability_arithmetic (s : SimStateVec) :
    (stabilityCheck s = none ↔
      (0.4 : ℚ) ≤ calculate_zmp_score s.base_vel s.payload 0.5) ∧
    calculate_zmp_score 3.0 0 0.5 = 0 ∧
    stabilityCheck fixStateSprint = some "ZMP Critical: Unstable (Score: 0.00)" ∧
    strHasSub "ZMP Critical: Unstable (Score: 0.00)" "ZMP Critical" = true := by
  refine ⟨?_, by decide, by decide, by decide⟩
  by_cases h : calculate_zmp_score s.base_vel s.payload 0.5 < 0.4
  · simp [stabilityCheck, h, not_le.mpr h]
  · simp [stabilityCheck, h, not_lt.mp h]

/-- C3 (counterexample): a chunk whose single joint starts 0.3 rad from the
twin — more than the claimed 0.1 rad tolerance — is not rejected: the
source's tolerance is 0.5 rad and the chunk verifies as safe. -/
theorem C3_counterexample :
    pyAbs ((0 : ℚ) - 0.3) > 0.1 ∧
    continuityCheck fixChunkJump03 fixStateCalm.joints = none ∧
    verify_trajectory fixChunkJump03 fixStateCalm none
      = ⟨true, "Trajectory within Safe Operating Envelope"⟩ := by
  refine ⟨by decide, by decide, by decide⟩

/-- C3 (amended): the continuity check fails with a Continuity Error exactly
when some trajectory joint that has an entry in the current joint map differs
from its waypoint-0 position (taken at the joint's index) by more than 0.5
rad; joints absent from the map are skipped. -/
theorem C3_continuity_tolerance (t : JointTrajectoryChunk)
    (joints : List (String × ℚ)) :
    continuityCheck t joints = none ↔
      ∀ p ∈ t.joint_names.enum, ∀ cv, List.lookup p.2 joints = some cv →
        pyAbs (cv - (t.waypoints.headD ⟨[], [], none, none⟩).positions.getD p.1 0) ≤ 0.5 := by
  simp only [continuityCheck]
  rw [List.findSome?_eq_none_iff]
  constructor
  · intro H p hp cv hcv
    have hnone := H p hp
    simp only [hcv] at hnone
    by_contra hgt
    rw [if_pos (not_le.mp hgt)] at hnone
    exact Option.noConfusion hnone
  · intro H p hp
    cases hcv : List.lookup p.2 joints with
    | none => simp
    | some cv =>
      simp only
      rw [if_neg (not_lt.mpr (H p hp cv hcv))]

/-- C10: joints absent from the current state's joint map are silently
skipped by the continuity check, so a trajectory none of whose joint names
appear in the twin's map passes the continuity gate regardless of its start
waypoint. -/
theorem C10_absent_joints_skipped (t : JointTrajectoryChunk)
    (s : SimStateVec) (lims : Option (List (String × (ℚ × ℚ))))
    (habs : ∀ n ∈ t.joint_names, List.lookup n s.joints = none) :
    continuityCheck t s.joints = none := by
  simp only [continuityCheck]
  rw [List.findSome?_eq_none_iff]
  intro p hp
  have hmem : p.2 ∈ t.joint_names := by
    have hget := List.mem_enum_iff_getElem?.mp hp
    exact List.getElem?_mem hget
  simp [habs p.2 hmem]

/-- C10 (witness): a one-joint trajectory whose joint name `armA` is foreign
to the twin's `joint_1` map passes the continuity gate although its start
waypoint sits 9 rad away. -/
theorem C10_absent_joints_skipped_witness :
    (∀ n ∈ fixChunkForeignNames.joint_names,
        List.lookup n fixStateCalm.joints = none) ∧
    continuityCheck fixChunkForeignNames fixStateCalm.joints = none :=
  ⟨by decide,
   C10_absent_joints_skipped fixChunkForeignNames fixStateCalm none (by decide)⟩

/-- C4 (counterexample): the source's check order is continuity, per-waypoint
names/limits, then force, then stability — with a chunk over the force limit
in a state that also fails stability, the reported reason is the Force error
(the claimed stability-before-force order would report stability); and a
passing chunk certifies with reason `"Trajectory within Safe Operating
Envelope"`, not the claimed `"Certified Safe"`. -/
theorem C4_counterexample :
    verify_trajectory fixChunkForce150 fixStateSprint none
      = ⟨false, "Force Limit Exceeded: 150.0N > 100.0N"⟩ ∧
    stabilityCheck fixStateSprint = some "ZMP Critical: Unstable (Score: 0.00)" ∧
    verify_trajectory fixChunkOK fixStateCalm none
      = ⟨true, "Trajectory within Safe Operating Envelope"⟩ ∧
    "Trajectory within Safe Operating Envelope" ≠ "Certified Safe" := by
  refine ⟨by decide, by decide, by decide, by decide⟩

/-- C4 (amended): `verify_trajectory` is a pure function of its arguments
that runs continuity, then per-waypoint names/limits, then force, then
stability, short-circuits on the first failure (reporting that check's
reason), and returns `valid = true` with reason `"Trajectory within Safe
Operating Envelope"` exactly when all four checks pass. -/
theorem C4_check_order (t : JointTrajectoryChunk) (s : SimStateVec)
    (lims : Option (List (String × (ℚ × ℚ)))) :
    (verify_trajectory t s lims
        = ⟨true, "Trajectory within Safe Operating Envelope"⟩ ↔
      continuityCheck t s.joints = none ∧ waypointsCheck t lims = none ∧
      forceCheck t = none ∧ stabilityCheck s = none) ∧
    (∀ r, continuityCheck t s.joints = some r →
      verify_trajectory t s lims = ⟨false, r⟩) ∧
    (∀ r, continuityCheck t s.joints = none → waypointsCheck t lims = some r →
      verify_trajectory t s lims = ⟨false, r⟩) ∧
    (∀ r, continuityCheck t s.joints = none → waypointsCheck t lims = none →
      forceCheck t = some r → verify_trajectory t s lims = ⟨false, r⟩) ∧
    (∀ r, continuityCheck t s.joints = none → waypointsCheck t lims = none →
      forceCheck t = none → stabilityCheck s = some r →
      verify_trajectory t s lims = ⟨false, r⟩) := by
  refine ⟨?_, ?_, ?_, ?_, ?_⟩
  · cases h1 : continuityCheck t s.joints with
    | some r => simp [verify_trajectory, h1]
    | none =>
      cases h2 : waypointsCheck t lims with
      | some r => simp [verify_trajectory, h1, h2]
      | none =>
        cases h3 : forceCheck t with
        | some r => simp [verify_trajectory, h1, h2, h3]
        | none =>
          cases h4 : stabilityCheck s with
          | some r => simp [verify_trajectory, h1, h2, h3, h4]
          | none => simp [verify_trajectory, h1, h2, h3, h4]
  · intro r h1; simp [verify_trajectory, h1]
  · intro r h1 h2; simp [verify_trajectory, h1, h2]
  · intro r h1 h2 h3; simp [verify_trajectory, h1, h2, h3]
  · intro r h1 h2 h3 h4; simp [verify_trajectory, h1, h2, h3, h4]

/-- `pyMod1` is the fractional-part function. -/
theorem pyMod1_eq_fract (q : ℚ) : pyMod1 q = Int.fract q := rfl

/-- C7 (counterexample): two planner invocations over the same 4-second
`walk_to` subtask at offsets 0 and 1 both produce a chunk with global ordinal
1, but those chunks carry different latent vectors — the latent depends on
the chunk's local index within its subtask, not (as claimed) on a hash of
`{task_digest, subtask_type, ordinal}`, which would force equal latents at
equal ordinals. -/
theorem C7_counterexample :
    ((plan_subtask_chunks fixSubtaskWalk 0 0 0).getD 1 fixRawDefault).id = 1 ∧
    ((plan_subtask_chunks fixSubtaskWalk 0 0 1).getD 0 fixRawDefault).id = 1 ∧
    ((plan_subtask_chunks fixSubtaskWalk 0 0 0).getD 1 fixRawDefault).latent
      ≠ ((plan_subtask_chunks fixSubtaskWalk 0 0 1).getD 0 fixRawDefault).latent := by
  refine ⟨by decide, by decide, by decide⟩

/-- C7 (amended): each chunk's latent vector is the deterministic constant
64-vector `(mean(vision) + mean(task) + mean(subtask_spec) + 0.1·i) mod 1`
where `i` is the chunk's local index within its subtask — independent of the
subtask's global chunk offset (so generation is order-independent), derived
from no global random stream and no hash, with every entry in `[0, 1)`. -/
theorem C7_latent_generation (st : ALOHATaskDecomposer.Subtask) (vm tm : ℚ)
    (s1 s2 i : ℕ)
    (h1 : i < (plan_subtask_chunks st vm tm s1).length)
    (h2 : i < (plan_subtask_chunks st vm tm s2).length) :
    ((plan_subtask_chunks st vm tm s1).get ⟨i, h1⟩).latent
        = ((plan_subtask_chunks st vm tm s2).get ⟨i, h2⟩).latent ∧
    ((plan_subtask_chunks st vm tm s1).get ⟨i, h1⟩).latent
        = List.replicate 64 (pyMod1 (vm + tm + encode_subtask st.type + i * 0.1)) ∧
    ∀ q ∈ ((plan_subtask_chunks st vm tm s1).get ⟨i, h1⟩).latent,
      0 ≤ q ∧ q < 1 := by
  have key : ∀ s (h : i < (plan_subtask_chunks st vm tm s).length),
      ((plan_subtask_chunks st vm tm s).get ⟨i, h⟩).latent
        = List.replicate 64 (pyMod1 (vm + tm + encode_subtask st.type + i * 0.1)) := by
    intro s h
    simp only [plan_subtask_chunks, predict, List.get_eq_getElem,
      List.getElem_map, List.getElem_enum, List.getElem_range]
  refine ⟨(key s1 h1).trans (key s2 h2).symm, key s1 h1, ?_⟩
  rw [key s1 h1]
  intro q hq
  rw [List.eq_of_mem_replicate hq, pyMod1_eq_fract]
  exact ⟨Int.fract_nonneg _, Int.fract_lt_one _⟩

/-- C7 (witness): the amended claim evaluated for the `walk_to` subtask at
offsets 5 and 7, chunk index 0. -/
theorem C7_latent_generation_witness :
    ((plan_subtask_chunks fixSubtaskWalk 0 0 5).get ⟨0, by decide⟩).latent
        = ((plan_subtask_chunks fixSubtaskWalk 0 0 7).get ⟨0, by decide⟩).latent ∧
    ((plan_subtask_chunks fixSubtaskWalk 0 0 5).get ⟨0, by decide⟩).latent
        = List.replicate 64 (pyMod1 (0 + 0 + encode_subtask fixSubtaskWalk.type + 0 * 0.1)) :=
  ⟨(C7_latent_generation fixSubtaskWalk 0 0 5 7 0 (by decide) (by decide)).1,
   (C7_latent_generation fixSubtaskWalk 0 0 5 7 0 (by decide) (by decide)).2.1⟩

/-- C8 (counterexample): the encoder does not resolve the detected apple
(mass 0.2, friction 0.5) — its target-object lookup is a mock with constant
mass 0.5 and fusion-model friction 0.5 — and its cap is `0.7·max_force`, not
`0.8·max_force`: on the apple perception the source computes grip
`7.3575 N` where the claimed formula yields `2.943 N`. -/
theorem C8_counterexample :
    compute_safe_grip_force mcpRobotProfile
        (get_target_object_mass fixObjsApple fixRawChunkA)
        (predict_tactile [] "apple").friction_coefficient = 2943/400 ∧
    specGripForce 0.2 0.5 100 = 2943/1000 ∧
    ((2943 : ℚ)/400) ≠ 2943/1000 ∧
    (∀ ac ∈ fixAugChunks, ∀ tw ∈ ac.tactile_waypoints,
      tw.grip_force_n = 2943/400) := by
  refine ⟨by decide, by decide, by decide, by decide⟩

/-- C8 (amended): for every chunk and waypoint the tactile encoder computes
`grip_force_n = min((mass·9.81)/(friction·2)·1.5, 0.7·max_force_n)` with the
mocked mass 0.5 and friction 0.5, so `grip_force_n` never exceeds
`0.7 × gripper.max_force_n` — and hence (for a nonnegative max force) never
exceeds the claimed `0.8 ×` bound either. -/
theorem C8_grip_force_bound (profile : RobotProfile)
    (chunks : List ACTLongHorizonPlanner.RawChunk) (objs : List JObj)
    (ve : List ℚ) (hm : 0 ≤ profile.gripper_max_force_n) :
    ∀ ac ∈ augment_chunks_with_tactile profile chunks objs ve,
      ∀ tw ∈ ac.tactile_waypoints,
        tw.grip_force_n ≤ 0.7 * profile.gripper_max_force_n ∧
        tw.grip_force_n ≤ 0.8 * profile.gripper_max_force_n := by
  intro ac hac tw htw
  simp only [augment_chunks_with_tactile, List.mem_map] at hac
  obtain ⟨chunk, _, rfl⟩ := hac
  simp only [List.mem_map] at htw
  obtain ⟨wp, _, rfl⟩ := htw
  have hb : compute_safe_grip_force profile
      (get_target_object_mass objs chunk)
      (predict_tactile ve "cube").friction_coefficient
        ≤ 0.7 * profile.gripper_max_force_n := by
    unfold compute_safe_grip_force
    calc pyMin _ (profile.gripper_max_force_n * 0.7)
        ≤ profile.gripper_max_force_n * 0.7 := pyMin_le_right _ _
      _ = 0.7 * profile.gripper_max_force_n := mul_comm _ _
  refine ⟨hb, hb.trans ?_⟩
  have : (0.7 : ℚ) ≤ 0.8 := by norm_num
  exact mul_le_mul_of_nonneg_right this hm

/-- C8 (witness): the bound evaluated on the concrete fixture chunks against
the pipeline's 100 N gripper. -/
theorem C8_grip_force_bound_witness :
    (0 : ℚ) ≤ mcpRobotProfile.gripper_max_force_n ∧
    (∀ ac ∈ augment_chunks_with_tactile mcpRobotProfile
        [fixRawChunkA, fixRawChunkB] fixObjsApple [],
      ∀ tw ∈ ac.tactile_waypoints,
        tw.grip_force_n ≤ 0.7 * mcpRobotProfile.gripper_max_force_n ∧
        tw.grip_force_n ≤ 0.8 * mcpRobotProfile.gripper_max_force_n) :=
  ⟨by decide,
   C8_grip_force_bound mcpRobotProfile [fixRawChunkA, fixRawChunkB]
     fixObjsApple [] (by decide)⟩

/-- Looking up each name of a duplicate-free `names` in `names.zip vals`
recovers `vals` (when the lengths agree). -/
theorem map_lookup_zip : ∀ (names : List String) (vals : List ℚ) (d : ℚ),
    names.Nodup → vals.length = names.length →
    names.map (fun n => (List.lookup n (names.zip vals)).getD d) = vals := by
  intro names
  induction names with
  | nil =>
    intro vals d _ hlen
    have : vals = [] := List.length_eq_zero.mp (by simpa using hlen)
    simp [this]
  | cons n ns ih =>
    intro vals d hnd hlen
    cases vals with
    | nil => simp at hlen
    | cons v vs =>
      simp only [List.zip_cons_cons, List.map_cons, List.lookup_cons_self,
        Option.getD_some]
      congr 1
      have hstep : ∀ m ∈ ns,
          (List.lookup m ((n, v) :: ns.zip vs)).getD d
            = (List.lookup m (ns.zip vs)).getD d := by
        intro m hm
        have hne : (m == n) = false :=
          beq_false_of_ne fun hEq => (List.nodup_cons.mp hnd).1 (hEq ▸ hm)
        rw [List.lookup_cons, hne]
      rw [List.map_congr_left hstep]
      exact ih vs d (List.nodup_cons.mp hnd).2 (by simpa using hlen)

/-- C6: for every IK primitive, profile with nonempty duplicate-free joint
names, chunk list and initial joint dict, adjacent mapped chunks chain:
chunk `i+1`'s first waypoint positions equal chunk `i`'s last waypoint
positions, because the mapper's `current_joints` accumulator is reset to
each chunk's IK target before the next chunk is emitted. -/
theorem C6_trajectory_chaining (solveIK : ℚ × ℚ × ℚ → List ℚ)
    (profile : RobotProfile) (chunks : List VisioTactileActionEncoder.AugChunk)
    (cj : List (String × ℚ))
    (hnd : profile.joint_names.Nodup)
    (hne : profile.joint_names ≠ [])
    (hlen : ∀ w, (solveIK w).length = profile.joint_names.length)
    (i : ℕ) (hi : i + 1 < (map_chunks_to_robot solveIK profile chunks cj).length) :
    (((map_chunks_to_robot solveIK profile chunks cj).get
        ⟨i + 1, hi⟩).waypoints.headD ⟨[], [], none, none⟩).positions
      = (((map_chunks_to_robot solveIK profile chunks cj).get
          ⟨i, Nat.lt_of_succ_lt hi⟩).waypoints.getLastD ⟨[], [], none, none⟩).positions := by
  induction chunks generalizing cj i with
  | nil => simp [map_chunks_to_robot] at hi
  | cons c cs ih =>
    cases i with
    | zero =>
      cases cs with
      | nil => simp [map_chunks_to_robot] at hi
      | cons c2 cs2 =>
        have hlz : (profile.joint_names.zip
            (solveIK (denormalize (c.raw.position_waypoints.getLastD [])
              profile.workspace))).length = profile.joint_names.length := by
          rw [List.length_zip, hlen, Nat.min_self]
        have hpos : 0 < profile.joint_names.length := List.length_pos.mpr hne
        have hzip : (profile.joint_names.zip
            (solveIK (denormalize (c.raw.position_waypoints.getLastD [])
              profile.workspace))).isEmpty = false := by
          cases hzl : profile.joint_names.zip
              (solveIK (denormalize (c.raw.position_waypoints.getLastD [])
                profile.workspace)) with
          | nil => rw [hzl] at hlz; simp at hlz; omega
          | cons a l => rfl
        simp [map_chunks_to_robot, hzip, List.getLastD_concat]
        have hik : solveIK (denormalize
            (c.raw.position_waypoints.getLast?.getD []) profile.workspace) ≠ [] := by
          intro hempty
          have hl := hlen (denormalize
            (c.raw.position_waypoints.getLast?.getD []) profile.workspace)
          rw [hempty] at hl
          exact hne (List.length_eq_zero.mp hl.symm)
        rw [if_neg (by push_neg; exact ⟨hne, hik⟩)]
        simp
        exact map_lookup_zip _ _ _ hnd (hlen _)
    | succ j =>
      simp only [map_chunks_to_robot, List.get_cons_succ]
      exact ih _ j _

/-- C6 (witness): chaining evaluated on the two concrete fixture chunks,
mapped with a concrete IK stub from the seven-joint home pose. -/
theorem C6_trajectory_chaining_witness :
    mcpRobotProfile.joint_names.Nodup ∧
    (((map_chunks_to_robot fixSolveIK mcpRobotProfile fixAugChunks
        fixStartJoints).get ⟨1, by decide⟩).waypoints.headD
          ⟨[], [], none, none⟩).positions
      = (((map_chunks_to_robot fixSolveIK mcpRobotProfile fixAugChunks
          fixStartJoints).get ⟨0, by decide⟩).waypoints.getLastD
            ⟨[], [], none, none⟩).positions :=
  ⟨by decide,
   C6_trajectory_chaining fixSolveIK mcpRobotProfile fixAugChunks
     fixStartJoints (by decide) (by decide) (fun w => rfl) 0 (by decide)⟩

/-- C2: executing the same `(plan_id, chunk_id)` twice on the same pipeline
returns the same result record by value — the second call returns the cached
record (identical `executed_at` included) and leaves the state unchanged
regardless of the second call's clock — and every non-`ERROR` outcome
(`SUCCESS`, `FAILED`, `REJECTED`) is cached under the execution id. -/
theorem C2_execution_idempotency (ps : MRCPUnifiedPipeline.PipelineState)
    (pid cid : String) (clk1 clk2 : Clock) :
    execute_chunk (execute_chunk ps pid cid clk1).2 pid cid clk2
        = ((execute_chunk ps pid cid clk1).1, (execute_chunk ps pid cid clk1).2) ∧
    ((execute_chunk ps pid cid clk1).1.status ≠ "ERROR" →
      List.lookup (pid ++ ":" ++ cid)
          (execute_chunk ps pid cid clk1).2.execution_results
        = some (execute_chunk ps pid cid clk1).1) := by
  cases hcache : List.lookup (pid ++ ":" ++ cid) ps.execution_results with
  | some r =>
    refine ⟨by simp [execute_chunk, hcache], fun _ => by simp [execute_chunk, hcache]⟩
  | none =>
    cases hplan : List.lookup pid ps.active_plans with
    | none =>
      refine ⟨by simp [execute_chunk, hcache, hplan], fun hstat => ?_⟩
      exact absurd (by simp [execute_chunk, hcache, hplan]) hstat
    | some plan =>
      cases hchunk : plan.chunks.find? (fun c => c.chunk_id == cid) with
      | none =>
        refine ⟨by simp [execute_chunk, hcache, hplan, hchunk], fun hstat => ?_⟩
        exact absurd (by simp [execute_chunk, hcache, hplan, hchunk]) hstat
      | some tc =>
        by_cases hv : (verify_trajectory tc ps.sim.get_state_vector
            (some mcpRobotProfile.joint_limits)).valid = false
        · exact ⟨by simp [execute_chunk, hcache, hplan, hchunk, hv],
            fun _ => by simp [execute_chunk, hcache, hplan, hchunk, hv]⟩
        · exact ⟨by simp [execute_chunk, hcache, hplan, hchunk, hv],
            fun _ => by simp [execute_chunk, hcache, hplan, hchunk, hv]⟩

/-- C2 (witness): executing the stored passing chunk twice from the fixture
state — with different clocks — returns one record twice and caches it. -/
theorem C2_execution_idempotency_witness :
    execute_chunk (execute_chunk fixPipelineState "p" "c" ⟨some 9, 1⟩).2 "p" "c" ⟨none, 2⟩
        = ((execute_chunk fixPipelineState "p" "c" ⟨some 9, 1⟩).1,
           (execute_chunk fixPipelineState "p" "c" ⟨some 9, 1⟩).2) ∧
    List.lookup ("p" ++ ":" ++ "c")
        (execute_chunk fixPipelineState "p" "c" ⟨some 9, 1⟩).2.execution_results
      = some (execute_chunk fixPipelineState "p" "c" ⟨some 9, 1⟩).1 :=
  ⟨(C2_execution_idempotency fixPipelineState "p" "c" ⟨some 9, 1⟩ ⟨none, 2⟩).1,
   (C2_execution_idempotency fixPipelineState "p" "c" ⟨some 9, 1⟩ ⟨none, 2⟩).2
     (by decide)⟩

/-- The tactile encoder's output does not depend on the vision-embedding
draw: the fusion mock ignores it. -/
theorem augment_vision_irrelevant (p : RobotProfile)
    (cs : List ACTLongHorizonPlanner.RawChunk) (os : List JObj)
    (ve1 ve2 : List ℚ) :
    augment_chunks_with_tactile p cs os ve1
      = augment_chunks_with_tactile p cs os ve2 := rfl

/-- C1: planning is deterministic — for any digest and IK primitives, fixed
config and identical `(instruction, perception, state)` inputs, two fresh
pipeline instances with the clock frozen at the same value produce equal
`TaskPlan`s (hence identical `plan_id`s and byte-identical canonical-JSON
serializations), whatever the wall-clock times and whatever the ignored
vision-embedding draws. -/
theorem C1_plan_determinism (h : String → String)
    (solveIK : ℚ × ℚ × ℚ → List ℚ) (config : DeterminismConfig)
    (instruction : String) (perception : PerceptionSnapshot)
    (state : RobotStateSnapshot) (f w1 w2 wall1 wall2 : ℚ) (ve1 ve2 : List ℚ) :
    (process_task h solveIK config instruction perception state
        ⟨some f, w1⟩ ve1 (freshState wall1)).1
      = (process_task h solveIK config instruction perception state
          ⟨some f, w2⟩ ve2 (freshState wall2)).1 ∧
    (process_task h solveIK config instruction perception state
        ⟨some f, w1⟩ ve1 (freshState wall1)).1.plan_id
      = (process_task h solveIK config instruction perception state
          ⟨some f, w2⟩ ve2 (freshState wall2)).1.plan_id ∧
    dumps (canonicalize 6 (.obj (process_task h solveIK config instruction
        perception state ⟨some f, w1⟩ ve1 (freshState wall1)).1.model_dump))
      = dumps (canonicalize 6 (.obj (process_task h solveIK config instruction
          perception state ⟨some f, w2⟩ ve2 (freshState wall2)).1.model_dump)) := by
  have key : (process_task h solveIK config instruction perception state
      ⟨some f, w1⟩ ve1 (freshState wall1)).1
        = (process_task h solveIK config instruction perception state
            ⟨some f, w2⟩ ve2 (freshState wall2)).1 := rfl
  exact ⟨key, by rw [key], by rw [key]⟩

end MCPRobot
